import Mathlib

/-!
Verification of the synchronous dispatch facade of a SYCL hashing library
(`src/include/internal/sync_api.hpp`, namespace `hash`).

The facade consists of six `compute` overloads selected at compile time by
`std::enable_if_t` constraints over a `method` tag, plus macro-generated
named aliases.  The two primitives the facade calls,
`internal::hash_with_data_copy` and `internal::dispatch_hash`, are declared
but not present in the sources; they are modelled from the specification.
-/

namespace HashFacade

/-- The `hash::method` enumeration: the seven supported algorithm tags. -/
inductive Method
  | md2
  | md5
  | sha1
  | sha256
  | keccak
  | sha3
  | blake2b
deriving DecidableEq, Repr, Fintype

/-- Memory residency of the caller's buffers: selected by which overload the
caller picks (`const byte *` arguments versus `device_accessible_ptr<byte>`
arguments), never inferred at run time. -/
inductive Residency
  | host
  | device
deriving DecidableEq, Repr, Fintype

/-- The compile-time shape of a `compute` call site: which residency the
pointer argument types select, whether an explicit `n_outbit` template
argument is supplied, and whether the trailing `(key, keylen)` runtime
arguments are supplied. -/
structure CallShape where
  residency : Residency
  hasOutbit : Bool
  hasKey : Bool
deriving DecidableEq, Repr, Fintype

/-- Overload at `sync_api.hpp:26-29` (host-resident, fixed digest):
`template<method M, typename = enable_if_t<M != keccak && M != sha3 && M != blake2b>>`
with parameters `(q, in, inlen, out, n_batch)`.  It participates in
resolution exactly for a host-residency call with no `n_outbit` template
argument and no key arguments, when the `enable_if` condition holds. -/
def admitsHostFixed (M : Method) (s : CallShape) : Bool :=
  s.residency == Residency.host && s.hasOutbit == false && s.hasKey == false
    && !(M == Method.keccak) && !(M == Method.sha3) && !(M == Method.blake2b)

/-- Overload at `sync_api.hpp:41-44` (host-resident, variable digest):
`template<method M, int n_outbit, typename = enable_if_t<M == keccak || M == sha3>>`
with parameters `(q, in, inlen, out, n_batch)`. -/
def admitsHostVar (M : Method) (s : CallShape) : Bool :=
  s.residency == Residency.host && s.hasOutbit == true && s.hasKey == false
    && (M == Method.keccak || M == Method.sha3)

/-- Overload at `sync_api.hpp:56-59` (host-resident, keyed):
`template<method M, int n_outbit, typename = enable_if_t<M == blake2b>>`
with parameters `(q, in, inlen, out, n_batch, key, keylen)`. -/
def admitsHostKeyed (M : Method) (s : CallShape) : Bool :=
  s.residency == Residency.host && s.hasOutbit == true && s.hasKey == true
    && M == Method.blake2b

/-- Overload at `sync_api.hpp:73-76` (device-resident, fixed digest). -/
def admitsDevFixed (M : Method) (s : CallShape) : Bool :=
  s.residency == Residency.device && s.hasOutbit == false && s.hasKey == false
    && !(M == Method.keccak) && !(M == Method.sha3) && !(M == Method.blake2b)

/-- Overload at `sync_api.hpp:91-94` (device-resident, variable digest). -/
def admitsDevVar (M : Method) (s : CallShape) : Bool :=
  s.residency == Residency.device && s.hasOutbit == true && s.hasKey == false
    && (M == Method.keccak || M == Method.sha3)

/-- Overload at `sync_api.hpp:109-112` (device-resident, keyed). -/
def admitsDevKeyed (M : Method) (s : CallShape) : Bool :=
  s.residency == Residency.device && s.hasOutbit == true && s.hasKey == true
    && M == Method.blake2b

/-- The six `compute` overloads of `sync_api.hpp`, as admissibility
predicates over tag and call shape. -/
def overloadSet : List (Method → CallShape → Bool) :=
  [admitsHostFixed, admitsHostVar, admitsHostKeyed,
   admitsDevFixed, admitsDevVar, admitsDevKeyed]

/-- Number of `compute` overloads that resolve for tag `M` at call shape
`s`: 0 means the call fails to compile, 1 means a unique overload is
selected. -/
def resolvesCount (M : Method) (s : CallShape) : Nat :=
  (overloadSet.filter (fun f => f M s)).length

/-- The fixed-digest tags, as named by the specification. -/
def fixedDigest (M : Method) : Bool :=
  M == Method.md2 || M == Method.md5 || M == Method.sha1 || M == Method.sha256

/-- The legal call matrix as the specification words it: an output-width
parameter is supplied exactly for the variable-digest tags (sha3, keccak,
blake2b), key arguments exactly for blake2b, and both residency modes are
legal for every tag. -/
def specLegalShape (M : Method) (s : CallShape) : Bool :=
  s.hasOutbit == !(fixedDigest M) && s.hasKey == (M == Method.blake2b)

/-- A byte of data.  Memory buffers are modelled as lists of bytes. -/
abbrev Byte := Nat

/-- A SYCL event: modelled as the list of completion-handle ids the event
depends on.  A default-constructed `sycl::event{}` depends on nothing. -/
abbrev Event := List Nat

/-- The default-constructed dependency event `sycl::event{}`. -/
def emptyEvent : Event := []

/-- Which of the two external primitives a `compute` overload invokes. -/
inductive Prim
  | hashWithDataCopy
  | dispatchHash
deriving DecidableEq, Repr

/-- The record of the single primitive invocation a `compute` overload
issues: which primitive was selected and the exact argument values
forwarded to it.  `key = none` models a null key pointer; `dep = none`
means the primitive takes no dependency-event argument
(`hash_with_data_copy`), `dep = some e` records the event argument passed
to `dispatch_hash`. -/
structure PrimCall where
  prim : Prim
  M : Method
  n_outbit : Nat
  inlen : Nat
  n_batch : Nat
  key : Option (List Byte)
  keylen : Nat
  dep : Option Event
deriving DecidableEq, Repr

/-- Observable scheduling actions of one call, in submission order. -/
inductive Action
  | copyIn
  | launch (dep : Event) (h : Nat)
  | copyOut
  | wait (h : Nat)
deriving DecidableEq, Repr

/-- Whether an action is a blocking wait. -/
def Action.isWait : Action → Bool
  | Action.wait _ => true
  | _ => false

/-- Whether an action is a staging copy. -/
def Action.isCopy : Action → Bool
  | Action.copyIn => true
  | Action.copyOut => true
  | _ => false

/-- The external collaborator interface: the device kernel layer, consumed
but not implemented by the facade.  `kernel M w indata inlen n_batch key
keylen` is the concatenated digest bytes the device computes, or the
device/launch failure it raises. -/
structure Collaborators (E : Type) where
  kernel : Method → Nat → List Byte → Nat → Nat → Option (List Byte) → Nat →
    Except E (List Byte)

/-- Writing the computed digest bytes `ds` into the caller's output buffer
`out`: the first `ds.length` bytes are overwritten, any remaining bytes of
`out` are untouched. -/
def writeOut (out ds : List Byte) : List Byte :=
  ds ++ out.drop ds.length

/-- What a dispatch primitive returns: the record of the call made to it,
the actions it submitted in order, the completion handle it hands back, and
the final contents of the output buffer (or the propagated failure).
Waiting on `handle` blocks until every action in `trace` has completed. -/
structure DispatchResult (E : Type) where
  call : PrimCall
  trace : List Action
  handle : Nat
  output : Except E (List Byte)

/-- Modelled from the spec: `internal::hash_with_data_copy` (declared, not
present under `src/`) — the host-resident launch-with-staging primitive.
It stages input into device-visible memory, launches the kernel, and
stages output back before signaling completion; the returned structure's
`dev_e_` field is the completion handle of that whole chain.  `h` is the
fresh handle id the runtime assigns to this call.  Argument order follows
the call sites: `({q, in, out, n_batch, inlen}, key, keylen)`. -/
def hash_with_data_copy {E : Type} (C : Collaborators E) (M : Method)
    (n_outbit : Nat) (h : Nat) (indata out : List Byte)
    (n_batch inlen : Nat) (key : Option (List Byte)) (keylen : Nat) :
    DispatchResult E :=
  { call := { prim := Prim.hashWithDataCopy, M := M, n_outbit := n_outbit,
              inlen := inlen, n_batch := n_batch, key := key,
              keylen := keylen, dep := none },
    trace := [Action.copyIn, Action.launch emptyEvent h, Action.copyOut],
    handle := h,
    output := (C.kernel M n_outbit indata inlen n_batch key keylen).map
      (fun ds => writeOut out ds) }

/-- Modelled from the spec: `internal::dispatch_hash` (declared, not
present under `src/`) — the device-resident launch primitive.  It launches
the kernel directly on the given buffers with the given dependency event,
with no staging, and returns the launch's completion handle.  `h` is the
fresh handle id the runtime assigns.  Argument order follows the call
sites: `(q, dep, indata, outdata, inlen, n_batch, key, keylen)`. -/
def dispatch_hash {E : Type} (C : Collaborators E) (M : Method)
    (n_outbit : Nat) (dep : Event) (h : Nat) (indata out : List Byte)
    (inlen n_batch : Nat) (key : Option (List Byte)) (keylen : Nat) :
    DispatchResult E :=
  { call := { prim := Prim.dispatchHash, M := M, n_outbit := n_outbit,
              inlen := inlen, n_batch := n_batch, key := key,
              keylen := keylen, dep := some dep },
    trace := [Action.launch dep h],
    handle := h,
    output := (C.kernel M n_outbit indata inlen n_batch key keylen).map
      (fun ds => writeOut out ds) }

/-- What a `compute` overload returns to the model: the primitive call it
issued, the full action trace including its own blocking wait, the handle
it waited on, and the final output-buffer contents or propagated error. -/
structure ComputeResult (E : Type) where
  call : PrimCall
  trace : List Action
  handle : Nat
  result : Except E (List Byte)

/-- The `X.dev_e_.wait()` / `X.wait()` step shared by every overload body:
append a blocking wait on the handle the dispatch just produced. -/
def finishWait {E : Type} (r : DispatchResult E) : ComputeResult E :=
  { call := r.call,
    trace := r.trace ++ [Action.wait r.handle],
    handle := r.handle,
    result := r.output }

/-- `compute` overload, `sync_api.hpp:27-29` (host-resident, fixed digest):
`hash_with_data_copy<M, 0>({q, in, out, n_batch, inlen}, nullptr, 0).dev_e_.wait()`. -/
def compute_host_fixed {E : Type} (C : Collaborators E) (M : Method)
    (h : Nat) (indata : List Byte) (inlen : Nat) (out : List Byte)
    (n_batch : Nat) : ComputeResult E :=
  finishWait (hash_with_data_copy C M 0 h indata out n_batch inlen none 0)

/-- `compute` overload, `sync_api.hpp:42-44` (host-resident, variable
digest): `hash_with_data_copy<M, n_outbit>({q, in, out, n_batch, inlen},
nullptr, 0).dev_e_.wait()`. -/
def compute_host_var {E : Type} (C : Collaborators E) (M : Method)
    (n_outbit : Nat) (h : Nat) (indata : List Byte) (inlen : Nat)
    (out : List Byte) (n_batch : Nat) : ComputeResult E :=
  finishWait (hash_with_data_copy C M n_outbit h indata out n_batch inlen none 0)

/-- `compute` overload, `sync_api.hpp:57-59` (host-resident, keyed):
`hash_with_data_copy<M, n_outbit>({q, in, out, n_batch, inlen}, key,
keylen).dev_e_.wait()`. -/
def compute_host_keyed {E : Type} (C : Collaborators E) (M : Method)
    (n_outbit : Nat) (h : Nat) (indata : List Byte) (inlen : Nat)
    (out : List Byte) (n_batch : Nat) (key : Option (List Byte))
    (keylen : Nat) : ComputeResult E :=
  finishWait (hash_with_data_copy C M n_outbit h indata out n_batch inlen key keylen)

/-- `compute` overload, `sync_api.hpp:74-76` (device-resident, fixed
digest): `dispatch_hash<M, 0>(q, sycl::event{}, indata, outdata, inlen,
n_batch, nullptr, 0).wait()`. -/
def compute_dev_fixed {E : Type} (C : Collaborators E) (M : Method)
    (h : Nat) (indata : List Byte) (inlen : Nat) (out : List Byte)
    (n_batch : Nat) : ComputeResult E :=
  finishWait (dispatch_hash C M 0 emptyEvent h indata out inlen n_batch none 0)

/-- `compute` overload, `sync_api.hpp:92-94` (device-resident, variable
digest): `dispatch_hash<M, n_outbit>(q, sycl::event{}, indata, outdata,
inlen, n_batch, nullptr, 0).wait()`. -/
def compute_dev_var {E : Type} (C : Collaborators E) (M : Method)
    (n_outbit : Nat) (h : Nat) (indata : List Byte) (inlen : Nat)
    (out : List Byte) (n_batch : Nat) : ComputeResult E :=
  finishWait (dispatch_hash C M n_outbit emptyEvent h indata out inlen n_batch none 0)

/-- `compute` overload, `sync_api.hpp:110-112` (device-resident, keyed):
`dispatch_hash<M, n_outbit>(q, sycl::event{}, indata, outdata, inlen,
n_batch, key, keylen).wait()`. -/
def compute_dev_keyed {E : Type} (C : Collaborators E) (M : Method)
    (n_outbit : Nat) (h : Nat) (indata : List Byte) (inlen : Nat)
    (out : List Byte) (n_batch : Nat) (key : Option (List Byte))
    (keylen : Nat) : ComputeResult E :=
  finishWait (dispatch_hash C M n_outbit emptyEvent h indata out inlen n_batch key keylen)

/-- The runtime arguments of a `compute` call site, residency included
(residency is carried by the pointer argument types).  `key = some (k,
klen)` means the trailing `(key, keylen)` arguments are supplied, with `k`
the pointed-to key bytes (`none` inside models a null key pointer).  `h`
is the fresh handle id the runtime assigns to this call's dispatch. -/
structure RuntimeArgs where
  indata : List Byte
  inlen : Nat
  out : List Byte
  n_batch : Nat
  key : Option (Option (List Byte) × Nat)
  residency : Residency
  h : Nat

/-- A full `compute` call site: the optional explicit `n_outbit` template
argument plus the runtime arguments. -/
structure CallArgs where
  n_outbit : Option Nat
  rt : RuntimeArgs

/-- The compile-time shape of a call site. -/
def shapeOf (a : CallArgs) : CallShape :=
  { residency := a.rt.residency,
    hasOutbit := a.n_outbit.isSome,
    hasKey := a.rt.key.isSome }

/-- Overload resolution plus execution of `compute<...>` at a call site:
`none` models the call failing to compile (no overload resolves), `some r`
models the unique resolved overload running.  The branch conditions are
the `enable_if` constraints of `sync_api.hpp` verbatim. -/
def computeCall {E : Type} (C : Collaborators E) (M : Method)
    (a : CallArgs) : Option (ComputeResult E) :=
  match a.n_outbit, a.rt.key with
  | none, none =>
    if !(M == Method.keccak) && !(M == Method.sha3) && !(M == Method.blake2b) then
      some (match a.rt.residency with
        | Residency.host =>
          compute_host_fixed C M a.rt.h a.rt.indata a.rt.inlen a.rt.out a.rt.n_batch
        | Residency.device =>
          compute_dev_fixed C M a.rt.h a.rt.indata a.rt.inlen a.rt.out a.rt.n_batch)
    else none
  | some w, none =>
    if M == Method.keccak || M == Method.sha3 then
      some (match a.rt.residency with
        | Residency.host =>
          compute_host_var C M w a.rt.h a.rt.indata a.rt.inlen a.rt.out a.rt.n_batch
        | Residency.device =>
          compute_dev_var C M w a.rt.h a.rt.indata a.rt.inlen a.rt.out a.rt.n_batch)
    else none
  | some w, some (k, klen) =>
    if M == Method.blake2b then
      some (match a.rt.residency with
        | Residency.host =>
          compute_host_keyed C M w a.rt.h a.rt.indata a.rt.inlen a.rt.out a.rt.n_batch k klen
        | Residency.device =>
          compute_dev_keyed C M w a.rt.h a.rt.indata a.rt.inlen a.rt.out a.rt.n_batch k klen)
    else none
  | none, some _ => none

/-- Alias `compute_md2` (`sync_api.hpp:126`, macro `alias_sync_compute`):
forwards its argument pack unchanged to `compute<method::md2>`; the alias
supplies no `n_outbit` template argument. -/
def compute_md2 {E : Type} (C : Collaborators E) (r : RuntimeArgs) :
    Option (ComputeResult E) :=
  computeCall C Method.md2 { n_outbit := none, rt := r }

/-- Alias `compute_md5` (`sync_api.hpp:128`). -/
def compute_md5 {E : Type} (C : Collaborators E) (r : RuntimeArgs) :
    Option (ComputeResult E) :=
  computeCall C Method.md5 { n_outbit := none, rt := r }

/-- Alias `compute_sha1` (`sync_api.hpp:130`). -/
def compute_sha1 {E : Type} (C : Collaborators E) (r : RuntimeArgs) :
    Option (ComputeResult E) :=
  computeCall C Method.sha1 { n_outbit := none, rt := r }

/-- Alias `compute_sha256` (`sync_api.hpp:132`). -/
def compute_sha256 {E : Type} (C : Collaborators E) (r : RuntimeArgs) :
    Option (ComputeResult E) :=
  computeCall C Method.sha256 { n_outbit := none, rt := r }

/-- Alias `compute_sha3` (`sync_api.hpp:134`, macro
`alias_sync_compute_with_n_outbit`): forwards its argument pack unchanged
to `compute<method::sha3, n_outbit>`, with `n_outbit` an explicit template
argument of the alias itself. -/
def compute_sha3 {E : Type} (C : Collaborators E) (w : Nat)
    (r : RuntimeArgs) : Option (ComputeResult E) :=
  computeCall C Method.sha3 { n_outbit := some w, rt := r }

/-- Alias `compute_blake2b` (`sync_api.hpp:136`). -/
def compute_blake2b {E : Type} (C : Collaborators E) (w : Nat)
    (r : RuntimeArgs) : Option (ComputeResult E) :=
  computeCall C Method.blake2b { n_outbit := some w, rt := r }

/-- Alias `compute_keccak` (`sync_api.hpp:138`). -/
def compute_keccak {E : Type} (C : Collaborators E) (w : Nat)
    (r : RuntimeArgs) : Option (ComputeResult E) :=
  computeCall C Method.keccak { n_outbit := some w, rt := r }

/-- A concrete collaborator whose kernel always fails with error code `7`:
models a launch/device failure surfaced by the primitives. -/
def errCollab : Collaborators Nat :=
  { kernel := fun _ _ _ _ _ _ _ => Except.error 7 }

/-- A concrete collaborator whose kernel always produces the four digest
bytes `[9, 9, 9, 9]`. -/
def okCollab : Collaborators Nat :=
  { kernel := fun _ _ _ _ _ _ _ => Except.ok [9, 9, 9, 9] }

end HashFacade

namespace HashFacade

/-- Helper: the resolution count agrees with the specification's legal
matrix on the whole finite {tag × shape} space. -/
lemma resolvesCount_eq (M : Method) (s : CallShape) :
    resolvesCount M s = if specLegalShape M s then 1 else 0 := by
  revert M s
  decide

/-- Helper: a `compute` call site resolves (compiles) exactly when its
shape is the legal one for its tag. -/
lemma computeCall_isSome {E : Type} (C : Collaborators E) (M : Method)
    (a : CallArgs) :
    (computeCall C M a).isSome = specLegalShape M (shapeOf a) := by
  rcases a with ⟨ob, rt⟩
  rcases rt with ⟨ind, inlen, out, nb, key, res, h⟩
  cases ob <;> rcases key with _ | ⟨k, klen⟩ <;> cases M <;> cases res <;> rfl

/-- Helper: a `compute` call site resolves exactly when the overload set
admits exactly one overload for its tag and shape. -/
lemma computeCall_isSome_iff_count {E : Type} (C : Collaborators E)
    (M : Method) (a : CallArgs) :
    (computeCall C M a).isSome = true ↔ resolvesCount M (shapeOf a) = 1 := by
  rw [computeCall_isSome, resolvesCount_eq]
  cases hs : specLegalShape M (shapeOf a) <;> simp

/-- Helper: writing digest bytes into an exactly-sized output buffer
replaces its contents with exactly the digest bytes. -/
lemma writeOut_eq_of_length (out ds : List Byte) (h : out.length = ds.length) :
    writeOut out ds = ds := by
  simp [writeOut, ← h]

/-- C1: For every algorithm tag and every call shape, exactly one overload
resolves when the shape is the tag's legal one (for either residency mode),
and zero overloads resolve — a static rejection — for every combination
outside the legal matrix: an output width for a fixed-digest tag, a missing
output width for a variable-digest tag, or key arguments for any tag other
than blake2b. -/
theorem claim1_resolution_matrix :
    ∀ (M : Method) (s : CallShape),
      resolvesCount M s = if specLegalShape M s then 1 else 0 := by
  decide

/-- C2: Every `compute` overload's trace is its own primitive's submitted
actions followed by a single wait on exactly the completion handle that
primitive produced; the wait is the final action, so the call returns only
after the whole chain — device execution and, on the host path, the
staging copies — has completed, and no other wait occurs anywhere in the
call. -/
theorem claim2_single_wait_on_own_handle :
    ∀ (E : Type) (C : Collaborators E) (M : Method) (w h : Nat)
      (ind : List Byte) (inlen : Nat) (out : List Byte) (n : Nat)
      (k : Option (List Byte)) (klen : Nat),
      ((compute_host_fixed C M h ind inlen out n).trace
          = (hash_with_data_copy C M 0 h ind out n inlen none 0).trace
            ++ [Action.wait (hash_with_data_copy C M 0 h ind out n inlen none 0).handle]
        ∧ (compute_host_fixed C M h ind inlen out n).trace.countP Action.isWait = 1)
      ∧ ((compute_host_var C M w h ind inlen out n).trace
          = (hash_with_data_copy C M w h ind out n inlen none 0).trace
            ++ [Action.wait (hash_with_data_copy C M w h ind out n inlen none 0).handle]
        ∧ (compute_host_var C M w h ind inlen out n).trace.countP Action.isWait = 1)
      ∧ ((compute_host_keyed C M w h ind inlen out n k klen).trace
          = (hash_with_data_copy C M w h ind out n inlen k klen).trace
            ++ [Action.wait (hash_with_data_copy C M w h ind out n inlen k klen).handle]
        ∧ (compute_host_keyed C M w h ind inlen out n k klen).trace.countP Action.isWait = 1)
      ∧ ((compute_dev_fixed C M h ind inlen out n).trace
          = (dispatch_hash C M 0 emptyEvent h ind out inlen n none 0).trace
            ++ [Action.wait (dispatch_hash C M 0 emptyEvent h ind out inlen n none 0).handle]
        ∧ (compute_dev_fixed C M h ind inlen out n).trace.countP Action.isWait = 1)
      ∧ ((compute_dev_var C M w h ind inlen out n).trace
          = (dispatch_hash C M w emptyEvent h ind out inlen n none 0).trace
            ++ [Action.wait (dispatch_hash C M w emptyEvent h ind out inlen n none 0).handle]
        ∧ (compute_dev_var C M w h ind inlen out n).trace.countP Action.isWait = 1)
      ∧ ((compute_dev_keyed C M w h ind inlen out n k klen).trace
          = (dispatch_hash C M w emptyEvent h ind out inlen n k klen).trace
            ++ [Action.wait (dispatch_hash C M w emptyEvent h ind out inlen n k klen).handle]
        ∧ (compute_dev_keyed C M w h ind inlen out n k klen).trace.countP Action.isWait = 1) := by
  intro E C M w h ind inlen out n k klen
  exact ⟨⟨rfl, rfl⟩, ⟨rfl, rfl⟩, ⟨rfl, rfl⟩, ⟨rfl, rfl⟩, ⟨rfl, rfl⟩, ⟨rfl, rfl⟩⟩

/-- C3: Each host-resident overload invokes `hash_with_data_copy` and each
device-resident overload invokes `dispatch_hash`, for every tag and every
argument list; device-resident traces contain no staging copy, and the
route is fixed by the overload itself (the residency is an argument of
none of these definitions' bodies — each body names its primitive
directly). -/
theorem claim3_residency_routing :
    ∀ (E : Type) (C : Collaborators E) (M : Method) (w h : Nat)
      (ind : List Byte) (inlen : Nat) (out : List Byte) (n : Nat)
      (k : Option (List Byte)) (klen : Nat),
      (compute_host_fixed C M h ind inlen out n).call.prim = Prim.hashWithDataCopy
      ∧ (compute_host_var C M w h ind inlen out n).call.prim = Prim.hashWithDataCopy
      ∧ (compute_host_keyed C M w h ind inlen out n k klen).call.prim = Prim.hashWithDataCopy
      ∧ (compute_dev_fixed C M h ind inlen out n).call.prim = Prim.dispatchHash
      ∧ (compute_dev_var C M w h ind inlen out n).call.prim = Prim.dispatchHash
      ∧ (compute_dev_keyed C M w h ind inlen out n k klen).call.prim = Prim.dispatchHash
      ∧ (compute_dev_fixed C M h ind inlen out n).trace.countP Action.isCopy = 0
      ∧ (compute_dev_var C M w h ind inlen out n).trace.countP Action.isCopy = 0
      ∧ (compute_dev_keyed C M w h ind inlen out n k klen).trace.countP Action.isCopy = 0 := by
  intro E C M w h ind inlen out n k klen
  exact ⟨rfl, rfl, rfl, rfl, rfl, rfl, rfl, rfl, rfl⟩

/-- C4: Every overload forwards the per-block length and the batch count
to its selected primitive unchanged, and the keyed overloads additionally
forward the key pointer and key length unchanged — the facade performs no
batching, chunking, truncation, or reinterpretation of these arguments. -/
theorem claim4_argument_passthrough :
    ∀ (E : Type) (C : Collaborators E) (M : Method) (w h : Nat)
      (ind : List Byte) (inlen : Nat) (out : List Byte) (n : Nat)
      (k : Option (List Byte)) (klen : Nat),
      ((compute_host_fixed C M h ind inlen out n).call.inlen = inlen
        ∧ (compute_host_fixed C M h ind inlen out n).call.n_batch = n)
      ∧ ((compute_host_var C M w h ind inlen out n).call.inlen = inlen
        ∧ (compute_host_var C M w h ind inlen out n).call.n_batch = n)
      ∧ ((compute_host_keyed C M w h ind inlen out n k klen).call.inlen = inlen
        ∧ (compute_host_keyed C M w h ind inlen out n k klen).call.n_batch = n
        ∧ (compute_host_keyed C M w h ind inlen out n k klen).call.key = k
        ∧ (compute_host_keyed C M w h ind inlen out n k klen).call.keylen = klen)
      ∧ ((compute_dev_fixed C M h ind inlen out n).call.inlen = inlen
        ∧ (compute_dev_fixed C M h ind inlen out n).call.n_batch = n)
      ∧ ((compute_dev_var C M w h ind inlen out n).call.inlen = inlen
        ∧ (compute_dev_var C M w h ind inlen out n).call.n_batch = n)
      ∧ ((compute_dev_keyed C M w h ind inlen out n k klen).call.inlen = inlen
        ∧ (compute_dev_keyed C M w h ind inlen out n k klen).call.n_batch = n
        ∧ (compute_dev_keyed C M w h ind inlen out n k klen).call.key = k
        ∧ (compute_dev_keyed C M w h ind inlen out n k klen).call.keylen = klen) := by
  intro E C M w h ind inlen out n k klen
  exact ⟨⟨rfl, rfl⟩, ⟨rfl, rfl⟩, ⟨rfl, rfl, rfl, rfl⟩, ⟨rfl, rfl⟩, ⟨rfl, rfl⟩,
    ⟨rfl, rfl, rfl, rfl⟩⟩

/-- C5: For each variable-digest tag — sha3 and keccak through the
width-parameterized overloads, blake2b through the keyed overloads — the
host-resident and the device-resident overload leave bit-identical
contents in the output buffer for every output width and every identical
input batch (the fresh completion handles of the two calls may differ). -/
theorem claim5_host_device_agree :
    ∀ (E : Type) (C : Collaborators E) (w ha hb : Nat) (ind : List Byte)
      (inlen : Nat) (out : List Byte) (n : Nat) (k : Option (List Byte))
      (klen : Nat),
      (compute_host_var C Method.sha3 w ha ind inlen out n).result
        = (compute_dev_var C Method.sha3 w hb ind inlen out n).result
      ∧ (compute_host_var C Method.keccak w ha ind inlen out n).result
        = (compute_dev_var C Method.keccak w hb ind inlen out n).result
      ∧ (compute_host_keyed C Method.blake2b w ha ind inlen out n k klen).result
        = (compute_dev_keyed C Method.blake2b w hb ind inlen out n k klen).result := by
  intro E C w ha hb ind inlen out n k klen
  exact ⟨rfl, rfl, rfl⟩

/-- C6: Each of the seven named aliases forwards its argument pack
unchanged to `compute` at its tag (with the alias's own explicit
`n_outbit` template argument for the three variable-digest aliases and
none for the four fixed-digest ones), and each alias resolves exactly when
the underlying overload set admits exactly one overload for that tag and
argument shape — so the alias fails to compile for exactly the argument
combinations the resolver rejects. -/
theorem claim6_alias_forwarding :
    ∀ (E : Type) (C : Collaborators E) (w : Nat) (r : RuntimeArgs),
      (compute_md2 C r = computeCall C Method.md2 { n_outbit := none, rt := r }
        ∧ compute_md5 C r = computeCall C Method.md5 { n_outbit := none, rt := r }
        ∧ compute_sha1 C r = computeCall C Method.sha1 { n_outbit := none, rt := r }
        ∧ compute_sha256 C r = computeCall C Method.sha256 { n_outbit := none, rt := r }
        ∧ compute_sha3 C w r = computeCall C Method.sha3 { n_outbit := some w, rt := r }
        ∧ compute_blake2b C w r = computeCall C Method.blake2b { n_outbit := some w, rt := r }
        ∧ compute_keccak C w r = computeCall C Method.keccak { n_outbit := some w, rt := r })
      ∧ ((compute_md2 C r).isSome = true
          ↔ resolvesCount Method.md2
              { residency := r.residency, hasOutbit := false, hasKey := r.key.isSome } = 1)
      ∧ ((compute_md5 C r).isSome = true
          ↔ resolvesCount Method.md5
              { residency := r.residency, hasOutbit := false, hasKey := r.key.isSome } = 1)
      ∧ ((compute_sha1 C r).isSome = true
          ↔ resolvesCount Method.sha1
              { residency := r.residency, hasOutbit := false, hasKey := r.key.isSome } = 1)
      ∧ ((compute_sha256 C r).isSome = true
          ↔ resolvesCount Method.sha256
              { residency := r.residency, hasOutbit := false, hasKey := r.key.isSome } = 1)
      ∧ ((compute_sha3 C w r).isSome = true
          ↔ resolvesCount Method.sha3
              { residency := r.residency, hasOutbit := true, hasKey := r.key.isSome } = 1)
      ∧ ((compute_blake2b C w r).isSome = true
          ↔ resolvesCount Method.blake2b
              { residency := r.residency, hasOutbit := true, hasKey := r.key.isSome } = 1)
      ∧ ((compute_keccak C w r).isSome = true
          ↔ resolvesCount Method.keccak
              { residency := r.residency, hasOutbit := true, hasKey := r.key.isSome } = 1) := by
  intro E C w r
  refine ⟨⟨rfl, rfl, rfl, rfl, rfl, rfl, rfl⟩, ?_, ?_, ?_, ?_, ?_, ?_, ?_⟩
  · exact computeCall_isSome_iff_count C Method.md2 { n_outbit := none, rt := r }
  · exact computeCall_isSome_iff_count C Method.md5 { n_outbit := none, rt := r }
  · exact computeCall_isSome_iff_count C Method.sha1 { n_outbit := none, rt := r }
  · exact computeCall_isSome_iff_count C Method.sha256 { n_outbit := none, rt := r }
  · exact computeCall_isSome_iff_count C Method.sha3 { n_outbit := some w, rt := r }
  · exact computeCall_isSome_iff_count C Method.blake2b { n_outbit := some w, rt := r }
  · exact computeCall_isSome_iff_count C Method.keccak { n_outbit := some w, rt := r }

/-- C7: When the collaborator kernel layer fails with error `e` on the
facade's batch, every overload surfaces exactly `e` to the caller — no
retry, no fallback, no translation or wrapping, no partial result. -/
theorem claim7_error_passthrough :
    ∀ (E : Type) (C : Collaborators E) (M : Method) (w h : Nat)
      (ind : List Byte) (inlen : Nat) (out : List Byte) (n : Nat)
      (k : Option (List Byte)) (klen : Nat) (e : E),
      (∀ (w' : Nat) (k' : Option (List Byte)) (klen' : Nat),
          C.kernel M w' ind inlen n k' klen' = Except.error e) →
      (compute_host_fixed C M h ind inlen out n).result = Except.error e
      ∧ (compute_host_var C M w h ind inlen out n).result = Except.error e
      ∧ (compute_host_keyed C M w h ind inlen out n k klen).result = Except.error e
      ∧ (compute_dev_fixed C M h ind inlen out n).result = Except.error e
      ∧ (compute_dev_var C M w h ind inlen out n).result = Except.error e
      ∧ (compute_dev_keyed C M w h ind inlen out n k klen).result = Except.error e := by
  intro E C M w h ind inlen out n k klen e herr
  refine ⟨?_, ?_, ?_, ?_, ?_, ?_⟩ <;>
    simp [compute_host_fixed, compute_host_var, compute_host_keyed,
      compute_dev_fixed, compute_dev_var, compute_dev_keyed, finishWait,
      hash_with_data_copy, dispatch_hash, herr, Except.map]

/-- Witness for C7 at a collaborator that always fails with error `7`. -/
theorem claim7_error_passthrough_witness :
    (compute_host_fixed errCollab Method.md2 0 [1] 1 [0] 1).result = Except.error 7
    ∧ (compute_host_var errCollab Method.md2 512 0 [1] 1 [0] 1).result = Except.error 7
    ∧ (compute_host_keyed errCollab Method.md2 512 0 [1] 1 [0] 1 none 0).result = Except.error 7
    ∧ (compute_dev_fixed errCollab Method.md2 0 [1] 1 [0] 1).result = Except.error 7
    ∧ (compute_dev_var errCollab Method.md2 512 0 [1] 1 [0] 1).result = Except.error 7
    ∧ (compute_dev_keyed errCollab Method.md2 512 0 [1] 1 [0] 1 none 0).result = Except.error 7 :=
  claim7_error_passthrough Nat errCollab Method.md2 512 0 [1] 1 [0] 1 none 0 7
    (fun _ _ _ => rfl)

/-- C8: Two calls of the same overload with the same input batch and two
separate, exactly-sized output buffers (possibly holding different prior
contents, and under different fresh completion handles) leave identical
final output buffers, for every overload — the facade's result depends
only on the call's arguments. -/
theorem claim8_idempotent :
    ∀ (E : Type) (C : Collaborators E) (M : Method) (w ha hb : Nat)
      (ind : List Byte) (inlen n : Nat) (out1 out2 : List Byte)
      (k : Option (List Byte)) (klen : Nat) (ds1 ds2 ds3 : List Byte),
      C.kernel M 0 ind inlen n none 0 = Except.ok ds1 →
      out1.length = ds1.length → out2.length = ds1.length →
      C.kernel M w ind inlen n none 0 = Except.ok ds2 →
      out1.length = ds2.length → out2.length = ds2.length →
      C.kernel M w ind inlen n k klen = Except.ok ds3 →
      out1.length = ds3.length → out2.length = ds3.length →
      (compute_host_fixed C M ha ind inlen out1 n).result
        = (compute_host_fixed C M hb ind inlen out2 n).result
      ∧ (compute_host_var C M w ha ind inlen out1 n).result
        = (compute_host_var C M w hb ind inlen out2 n).result
      ∧ (compute_host_keyed C M w ha ind inlen out1 n k klen).result
        = (compute_host_keyed C M w hb ind inlen out2 n k klen).result
      ∧ (compute_dev_fixed C M ha ind inlen out1 n).result
        = (compute_dev_fixed C M hb ind inlen out2 n).result
      ∧ (compute_dev_var C M w ha ind inlen out1 n).result
        = (compute_dev_var C M w hb ind inlen out2 n).result
      ∧ (compute_dev_keyed C M w ha ind inlen out1 n k klen).result
        = (compute_dev_keyed C M w hb ind inlen out2 n k klen).result := by
  intro E C M w ha hb ind inlen n out1 out2 k klen ds1 ds2 ds3
    hk1 h1a h1b hk2 h2a h2b hk3 h3a h3b
  refine ⟨?_, ?_, ?_, ?_, ?_, ?_⟩ <;>
    simp [compute_host_fixed, compute_host_var, compute_host_keyed,
      compute_dev_fixed, compute_dev_var, compute_dev_keyed, finishWait,
      hash_with_data_copy, dispatch_hash, hk1, hk2, hk3, Except.map,
      writeOut_eq_of_length out1 ds1 h1a, writeOut_eq_of_length out2 ds1 h1b,
      writeOut_eq_of_length out1 ds2 h2a, writeOut_eq_of_length out2 ds2 h2b,
      writeOut_eq_of_length out1 ds3 h3a, writeOut_eq_of_length out2 ds3 h3b]

/-- Witness for C8: two md2-tagged calls with different exactly-sized
output buffers and different handles agree, at a collaborator that always
produces four digest bytes. -/
theorem claim8_idempotent_witness :
    (compute_host_fixed okCollab Method.md2 0 [1, 2] 2 [0, 0, 0, 0] 1).result
      = (compute_host_fixed okCollab Method.md2 1 [1, 2] 2 [5, 5, 5, 5] 1).result
    ∧ (compute_host_var okCollab Method.md2 512 0 [1, 2] 2 [0, 0, 0, 0] 1).result
      = (compute_host_var okCollab Method.md2 512 1 [1, 2] 2 [5, 5, 5, 5] 1).result
    ∧ (compute_host_keyed okCollab Method.md2 512 0 [1, 2] 2 [0, 0, 0, 0] 1 none 0).result
      = (compute_host_keyed okCollab Method.md2 512 1 [1, 2] 2 [5, 5, 5, 5] 1 none 0).result
    ∧ (compute_dev_fixed okCollab Method.md2 0 [1, 2] 2 [0, 0, 0, 0] 1).result
      = (compute_dev_fixed okCollab Method.md2 1 [1, 2] 2 [5, 5, 5, 5] 1).result
    ∧ (compute_dev_var okCollab Method.md2 512 0 [1, 2] 2 [0, 0, 0, 0] 1).result
      = (compute_dev_var okCollab Method.md2 512 1 [1, 2] 2 [5, 5, 5, 5] 1).result
    ∧ (compute_dev_keyed okCollab Method.md2 512 0 [1, 2] 2 [0, 0, 0, 0] 1 none 0).result
      = (compute_dev_keyed okCollab Method.md2 512 1 [1, 2] 2 [5, 5, 5, 5] 1 none 0).result :=
  claim8_idempotent Nat okCollab Method.md2 512 0 1 [1, 2] 2 1
    [0, 0, 0, 0] [5, 5, 5, 5] none 0 [9, 9, 9, 9] [9, 9, 9, 9] [9, 9, 9, 9]
    rfl rfl rfl rfl rfl rfl rfl rfl rfl

/-- C9: Even on a batch whose input buffer length is inconsistent with
per-block length × batch count, every overload's outcome is exactly the
collaborator's outcome on the forwarded arguments — the facade inserts no
size check and reports no error of its own, so mis-sizing yields
undefined/incorrect output rather than a reported error. -/
theorem claim9_no_size_validation :
    ∀ (E : Type) (C : Collaborators E) (M : Method) (w h : Nat)
      (ind : List Byte) (inlen : Nat) (out : List Byte) (n : Nat)
      (k : Option (List Byte)) (klen : Nat),
      ind.length ≠ inlen * n →
      (compute_host_fixed C M h ind inlen out n).result
        = (C.kernel M 0 ind inlen n none 0).map (writeOut out)
      ∧ (compute_host_var C M w h ind inlen out n).result
        = (C.kernel M w ind inlen n none 0).map (writeOut out)
      ∧ (compute_host_keyed C M w h ind inlen out n k klen).result
        = (C.kernel M w ind inlen n k klen).map (writeOut out)
      ∧ (compute_dev_fixed C M h ind inlen out n).result
        = (C.kernel M 0 ind inlen n none 0).map (writeOut out)
      ∧ (compute_dev_var C M w h ind inlen out n).result
        = (C.kernel M w ind inlen n none 0).map (writeOut out)
      ∧ (compute_dev_keyed C M w h ind inlen out n k klen).result
        = (C.kernel M w ind inlen n k klen).map (writeOut out) := by
  intro E C M w h ind inlen out n k klen hmis
  exact ⟨rfl, rfl, rfl, rfl, rfl, rfl⟩

/-- Witness for C9 at a mis-sized batch: three input bytes against
per-block length 2 × batch count 4. -/
theorem claim9_no_size_validation_witness :
    [1, 2, 3].length ≠ 2 * 4
    ∧ ((compute_host_fixed okCollab Method.md2 0 [1, 2, 3] 2 [0] 4).result
        = (okCollab.kernel Method.md2 0 [1, 2, 3] 2 4 none 0).map (writeOut [0])
      ∧ (compute_host_var okCollab Method.md2 512 0 [1, 2, 3] 2 [0] 4).result
        = (okCollab.kernel Method.md2 512 [1, 2, 3] 2 4 none 0).map (writeOut [0])
      ∧ (compute_host_keyed okCollab Method.md2 512 0 [1, 2, 3] 2 [0] 4 none 0).result
        = (okCollab.kernel Method.md2 512 [1, 2, 3] 2 4 none 0).map (writeOut [0])
      ∧ (compute_dev_fixed okCollab Method.md2 0 [1, 2, 3] 2 [0] 4).result
        = (okCollab.kernel Method.md2 0 [1, 2, 3] 2 4 none 0).map (writeOut [0])
      ∧ (compute_dev_var okCollab Method.md2 512 0 [1, 2, 3] 2 [0] 4).result
        = (okCollab.kernel Method.md2 512 [1, 2, 3] 2 4 none 0).map (writeOut [0])
      ∧ (compute_dev_keyed okCollab Method.md2 512 0 [1, 2, 3] 2 [0] 4 none 0).result
        = (okCollab.kernel Method.md2 512 [1, 2, 3] 2 4 none 0).map (writeOut [0])) :=
  ⟨by decide,
    claim9_no_size_validation Nat okCollab Method.md2 512 0 [1, 2, 3] 2 [0] 4 none 0
      (by decide)⟩

/-- C10: For every parameter the caller does not supply, the facade
forwards a fixed neutral value: output width 0 from both fixed-digest
overloads, a null key pointer with key length 0 from every non-keyed
overload, and the default-constructed dependency event — which depends on
no prior completion — from every device-resident overload's launch. -/
theorem claim10_neutral_defaults :
    ∀ (E : Type) (C : Collaborators E) (M : Method) (w h : Nat)
      (ind : List Byte) (inlen : Nat) (out : List Byte) (n : Nat)
      (k : Option (List Byte)) (klen : Nat),
      (compute_host_fixed C M h ind inlen out n).call.n_outbit = 0
      ∧ (compute_dev_fixed C M h ind inlen out n).call.n_outbit = 0
      ∧ ((compute_host_fixed C M h ind inlen out n).call.key = none
        ∧ (compute_host_fixed C M h ind inlen out n).call.keylen = 0)
      ∧ ((compute_host_var C M w h ind inlen out n).call.key = none
        ∧ (compute_host_var C M w h ind inlen out n).call.keylen = 0)
      ∧ ((compute_dev_fixed C M h ind inlen out n).call.key = none
        ∧ (compute_dev_fixed C M h ind inlen out n).call.keylen = 0)
      ∧ ((compute_dev_var C M w h ind inlen out n).call.key = none
        ∧ (compute_dev_var C M w h ind inlen out n).call.keylen = 0)
      ∧ (compute_dev_fixed C M h ind inlen out n).call.dep = some emptyEvent
      ∧ (compute_dev_var C M w h ind inlen out n).call.dep = some emptyEvent
      ∧ (compute_dev_keyed C M w h ind inlen out n k klen).call.dep = some emptyEvent
      ∧ (compute_dev_fixed C M h ind inlen out n).trace
          = [Action.launch emptyEvent h, Action.wait h]
      ∧ (compute_dev_var C M w h ind inlen out n).trace
          = [Action.launch emptyEvent h, Action.wait h]
      ∧ (compute_dev_keyed C M w h ind inlen out n k klen).trace
          = [Action.launch emptyEvent h, Action.wait h]
      ∧ emptyEvent = [] := by
  intro E C M w h ind inlen out n k klen
  exact ⟨rfl, rfl, ⟨rfl, rfl⟩, ⟨rfl, rfl⟩, ⟨rfl, rfl⟩, ⟨rfl, rfl⟩, rfl, rfl, rfl,
    rfl, rfl, rfl, rfl⟩

end HashFacade
